import Mathlib

/-!
Verification of the bulk reconciliation importer in `src/App.py`
(WP Project Manager Streamlit console).

The Python values flowing through the importer (parsed JSON documents and
rows of a CSV read through pandas) are modelled by the inductive type
`JVal`.  Scalars carry a `boxed` flag modelling numpy scalar wrappers
produced by pandas: a boxed scalar answers `hasattr(v, "item")` and is
unwrapped by `v.item()`; numpy float and str scalars are subclasses of the
plain Python types, so every `isinstance` test in the source ignores the
flag.  Floats are modelled as either NaN or an exact integral value, which
is all the importer ever distinguishes.  Python dicts are association
lists with unique keys (a Python dict cannot hold a duplicate key).
-/

inductive JVal where
  | null : JVal
  | bool : Bool → Bool → JVal
  | int : Bool → Int → JVal
  | float : Bool → Bool → Int → JVal
  | str : Bool → String → JVal
  | arr : List JVal → JVal
  | obj : List (String × JVal) → JVal

/-- A record of an uploaded batch: one Python dict, as an association list. -/
abbrev Record := List (String × JVal)

/-- Python truthiness, as tested by `if v:` and `bool(v)` in the source. -/
def JVal.truthy : JVal → Bool
  | JVal.null => false
  | JVal.bool _ b => b
  | JVal.int _ n => n != 0
  | JVal.float _ nan v => nan || v != 0
  | JVal.str _ s => !(s == "")
  | JVal.arr xs => !xs.isEmpty
  | JVal.obj fs => !fs.isEmpty

/-- Python `d[k]` / `k in d` lookup on a dict modelled as an association
list; Python dict keys are unique so the first match is the match. -/
def getField : List (String × JVal) → String → Option JVal
  | [], _ => none
  | (k, v) :: rest, key => if k == key then some v else getField rest key

/-- Python `d.get(k, default)`. -/
def jvGetD (item : Record) (k : String) (d : JVal) : JVal :=
  (getField item k).getD d

/-- Python `d.get(k)` (default `None`). -/
def jvGet (item : Record) (k : String) : JVal :=
  (getField item k).getD JVal.null

/-- Python `a or b`. -/
def pyOr (a b : JVal) : JVal := if a.truthy then a else b

/-- `item.get('id') or item.get('ID')`, computed for every record. -/
def itemId (item : Record) : JVal := pyOr (jvGet item "id") (jvGet item "ID")

/-- Numeric view used by Python `==` (bool counts as 0 or 1, a non NaN
float equals the integer it denotes, NaN equals nothing). -/
def pyNum : JVal → Option Int
  | JVal.bool _ b => some (if b then 1 else 0)
  | JVal.int _ n => some n
  | JVal.float _ nan v => if nan then none else some v
  | _ => none

/-- Python `==` as the importer uses it: the embedded code compares only
dictionary keys (hashable scalars; a container key would already be a
Python TypeError at the dict assignment) and the sentinel values `None`,
the empty string and the string `None`.  Scalar equality is modelled
exactly: strings by content (numpy str subclasses str), numerics cross
type via `pyNum`, NaN equal to nothing, `None` only to itself.  A
container compared with one of those scalars is always False in Python,
and that is what the catch all returns. -/
def pyEq (a b : JVal) : Bool :=
  match a, b with
  | JVal.str _ x, JVal.str _ y => x == y
  | JVal.null, JVal.null => true
  | a, b =>
      match pyNum a, pyNum b with
      | some x, some y => x == y
      | _, _ => false

/-- Python `str(v)` as far as the importer inspects it: the result is only
ever lowercased and compared with the literals `tasklist` and `task`, so
container and float renderings are placeholders that can never match. -/
def pyStr : JVal → String
  | JVal.null => "None"
  | JVal.bool _ b => if b then "True" else "False"
  | JVal.int _ n => toString n
  | JVal.float _ nan v => if nan then "nan" else toString v
  | JVal.str _ s => s
  | JVal.arr _ => "<list>"
  | JVal.obj _ => "<dict>"

/-- `extract_title` from `src/App.py` lines 145 to 152. -/
def extract_title (p : Record) : JVal :=
  match (getField p "title").getD JVal.null with
  | JVal.obj fs => (getField fs "rendered").getD (JVal.str false "")
  | JVal.str b s => JVal.str b s
  | _ =>
      let pt := jvGet p "project_title"
      if pt.truthy then pt
      else
        let nm := jvGet p "name"
        if nm.truthy then nm else JVal.str false ""

/-- `v.item()` applied when `hasattr(v, 'item')`: unwraps a numpy scalar,
leaves a plain value unchanged (a plain scalar carries `boxed = false`,
so the unboxing is the identity on it). -/
def coerceScalar : JVal → JVal
  | JVal.bool _ b => JVal.bool false b
  | JVal.int _ n => JVal.int false n
  | JVal.float _ nan v => JVal.float false nan v
  | JVal.str _ s => JVal.str false s
  | v => v

/-- ASCII lower casing of one character (Python `str.lower` restricted to
the ASCII field names and type tags the importer compares). -/
def lowerChar (c : Char) : Char :=
  if 65 ≤ c.toNat ∧ c.toNat ≤ 90 then Char.ofNat (c.toNat + 32) else c

/-- Python `s.lower()` on the ASCII strings the importer compares. -/
def lowerStr (s : String) : String := String.mk (s.data.map lowerChar)

/-- The whitespace stripped by Python `str.strip`. -/
def isSpaceChar (c : Char) : Bool := c == ' ' || c == '\t' || c == '\n' || c == '\r'

/-- Python `s.strip()`. -/
def trimStr (s : String) : String :=
  String.mk (((s.data.dropWhile isSpaceChar).reverse.dropWhile isSpaceChar).reverse)

/-- The values dropped by `clean_payload` when `skip_empty` is set: a NaN
float (`isinstance(v, float) and pd.isna(v)`), `None`, or a string blank
after `strip()`. -/
def dropEmptyVal : JVal → Bool
  | JVal.float _ nan _ => nan
  | JVal.null => true
  | JVal.str _ s => trimStr s == ""
  | _ => false

/-- The per field keep decision of the `clean_payload` loop. -/
def keepField (sel : List String) (se ei : Bool) (k : String) (v : JVal) : Bool :=
  !(ei && lowerStr k == "id") &&
  !(!sel.isEmpty && !sel.contains k) &&
  !(se && dropEmptyVal v)

/-- `clean_payload` from `src/App.py` lines 190 to 218. -/
def clean_payload (item : Record) (sel : List String) (se ei : Bool) : Record :=
  match item with
  | [] => []
  | (k, v) :: rest =>
      if keepField sel se ei k v then
        (k, coerceScalar v) :: clean_payload rest sel se ei
      else
        clean_payload rest sel se ei

/-!
`fetch_all_pages` (`src/App.py` lines 154 to 188).  The remote server is
modelled as the list of JSON responses it would give to the successive
page requests: entry `i` answers the request for page `i + 1`, a `none`
entry (and any request past the end of the list) models `wp_get_json`
returning `None`.  The loop is embedded together with the trace of
`(page, per_page)` request parameters it sends.
-/

/-- `isinstance(item, dict)`. -/
def isObj : JVal → Bool
  | JVal.obj _ => true
  | _ => false

/-- One iteration of the page loop up to the point where items are
extracted: `None`, a falsy body, a non list non dict body, and a dict
without a list under `data` all stop the loop without items; a bare
array and a dict wrapping an array under `data` yield their dict shaped
items. -/
def pageYield : Option JVal → Option (List JVal)
  | none => none
  | some v =>
      if !v.truthy then none
      else
        match v with
        | JVal.arr xs => some (xs.filter isObj)
        | JVal.obj fs =>
            match getField fs "data" with
            | some (JVal.arr xs) => some (xs.filter isObj)
            | _ => none
        | _ => none

/-- The `while True` loop of `fetch_all_pages`, returning the collected
items and the trace of `(page, per_page)` parameters of the requests it
issued, in order. -/
def fetchLoop (page : Nat) : List (Option JVal) → List JVal × List (Nat × Nat)
  | [] => ([], [(page, 100)])
  | r :: rest =>
      match pageYield r with
      | none => ([], [(page, 100)])
      | some items =>
          if items.length < 100 then (items, [(page, 100)])
          else
            let t := fetchLoop (page + 1) rest
            (items ++ t.1, (page, 100) :: t.2)

/-- `fetch_all_pages`: the value returned to the caller. -/
def fetch_all_pages (pages : List (Option JVal)) : List JVal :=
  (fetchLoop 1 pages).1

/-- The `(page, per_page)` request parameters sent by `fetch_all_pages`. -/
def requestTrace (pages : List (Option JVal)) : List (Nat × Nat) :=
  (fetchLoop 1 pages).2

/-- Specification side stop condition: a page keeps the loop going
exactly when it yields at least 100 dict shaped items. -/
def continues (r : Option JVal) : Bool :=
  match pageYield r with
  | some items => decide (100 ≤ items.length)
  | none => false

/-!
The bulk import of projects (`src/App.py` lines 434 to 513).  A run is a
left fold of the per record loop body over the uploaded batch (the first
record only, in test mode).  Remote behaviour is an oracle: the list of
JSON bodies the server would answer to the successive network calls, in
order; `none` models a failed call (`wp_post_json` or `wp_put_json`
returning `None`), and the source counts a call as successful only when
the returned body is truthy (`if res:`).
-/

/-- The three entries of the Import Mode radio control. -/
inductive Mode where
  | createOnly : Mode
  | updateOnly : Mode
  | smart : Mode
deriving DecidableEq

/-- A network call issued by the projects importer, with its payload. -/
inductive PCall where
  | post : Record → PCall
  | put : JVal → Record → PCall

/-- Result Ledger and remaining oracle of a projects import run. -/
structure PState where
  created : Nat
  updated : Nat
  skipped : Nat
  failed : Nat
  calls : List PCall
  net : List (Option JVal)

/-- `if res:` on the body returned by a network call. -/
def respOk : Option JVal → Bool
  | some v => v.truthy
  | none => false

/-- The body the remote oracle answers to the next network call. -/
def headResp : List (Option JVal) → Option JVal
  | [] => none
  | r :: _ => r

/-- `'title' not in payload or not payload.get('title')`, negated: the
payload carries a truthy title. -/
def payloadTitleOk (pl : Record) : Bool :=
  ((getField pl "title").getD JVal.null).truthy

/-- Loop body of the projects import (`src/App.py` lines 445 to 503),
omitting only progress display. -/
def projects_step (mode : Mode) (sel : List String) (se : Bool)
    (st : PState) (item : Record) : PState :=
  let iid := itemId item
  if mode = Mode.updateOnly ∧ iid.truthy = false then
    { st with skipped := st.skipped + 1 }
  else
    let payload := clean_payload item sel se true
    if payloadTitleOk payload = false then
      { st with failed := st.failed + 1 }
    else if (mode = Mode.updateOnly ∨ mode = Mode.smart) ∧ iid.truthy = true then
      let r := headResp st.net
      let st1 := { st with calls := st.calls ++ [PCall.put iid payload], net := st.net.tail }
      if respOk r then { st1 with updated := st1.updated + 1 }
      else { st1 with failed := st1.failed + 1 }
    else if mode = Mode.createOnly ∨ (mode = Mode.smart ∧ iid.truthy = false) then
      let r := headResp st.net
      let st1 := { st with calls := st.calls ++ [PCall.post payload], net := st.net.tail }
      if respOk r then { st1 with created := st1.created + 1 }
      else { st1 with failed := st1.failed + 1 }
    else st

/-- The projects import run: fold of the loop body over the batch, the
first record only when test mode is on. -/
def import_projects (mode : Mode) (sel : List String) (se : Bool) (test : Bool)
    (items : List Record) (net : List (Option JVal)) : PState :=
  (if test then items.take 1 else items).foldl (projects_step mode sel se)
    ⟨0, 0, 0, 0, [], net⟩

/-!
The unified task list and task import (`src/App.py` lines 653 to 924).
One run partitions the uploaded batch by its `type` column, imports the
task lists (phase 1) while recording `title -> remote id` in
`task_list_name_to_id`, then imports the tasks (phase 2), resolving each
`task_list_name` against that dictionary.  The remote oracle is threaded
exactly as in the projects importer.
-/

/-- The `task_list_name_to_id` dictionary: Python dict keyed by whatever
value the title field held. -/
abbrev NameMap := List (JVal × JVal)

/-- A network call issued by the unified importer. -/
inductive UCall where
  | postTaskList : Record → UCall
  | putTaskList : JVal → Record → UCall
  | postTask : Record → UCall
  | putTask : JVal → Record → UCall

/-- The payload carried by a unified import call. -/
def ucallPayload : UCall → Record
  | UCall.postTaskList p => p
  | UCall.putTaskList _ p => p
  | UCall.postTask p => p
  | UCall.putTask _ p => p

/-- Ledger, resolution map, call trace and remaining oracle of one
unified import run. -/
structure UState where
  tlCreated : Nat
  tlUpdated : Nat
  tlSkipped : Nat
  tlFailed : Nat
  tCreated : Nat
  tUpdated : Nat
  tSkipped : Nat
  tFailed : Nat
  nameToId : NameMap
  calls : List UCall
  net : List (Option JVal)

/-- Python dict assignment `d[k] = v`: overwrite in place or append. -/
def mapInsert (m : NameMap) (k v : JVal) : NameMap :=
  if m.any (fun p => pyEq p.1 k) then
    m.map (fun p => if pyEq p.1 k then (p.1, v) else p)
  else m ++ [(k, v)]

/-- Python `k in d` and `d[k]` on `task_list_name_to_id`. -/
def mapLookup (m : NameMap) (k : JVal) : Option JVal :=
  (m.find? (fun p => pyEq p.1 k)).map (fun p => p.2)

/-- `res.get('id')` on the body of a successful create call. -/
def respGetId : Option JVal → JVal
  | some (JVal.obj fs) => (getField fs "id").getD JVal.null
  | _ => JVal.null

/-- `if f in item and item[f]: payload[f] = item[f]` (task list optional
fields `order`, `status`, `milestone_id`). -/
def optField (item : Record) (f : String) : Record :=
  match getField item f with
  | some v => if v.truthy then [(f, v)] else []
  | none => []

/-- The task list payload built in phase 1 (`src/App.py` lines 750 to 763). -/
def taskListPayload (pid : JVal) (item : Record) : Record :=
  [("title", jvGetD item "title" (JVal.str false "")),
   ("description", jvGetD item "description" (JVal.str false "")),
   ("project_id", pid)] ++
  optField item "order" ++ optField item "status" ++ optField item "milestone_id"

/-- The optional task fields copied in phase 2 (`src/App.py` line 860). -/
def optionalTaskFields : List String :=
  ["start_at", "due_date", "complexity", "priority", "status", "parent_id",
   "order", "payable", "recurrent", "estimation"]

/-- `if f in item and item[f] not in [None, '', 'None']: payload[f] = item[f]`. -/
def taskOptField (item : Record) (f : String) : Record :=
  match getField item f with
  | some v =>
      if pyEq v JVal.null || pyEq v (JVal.str false "") || pyEq v (JVal.str false "None") then []
      else [(f, v)]
  | none => []

/-- The `elif 'task_list_id' in item and item['task_list_id']` branch. -/
def explicitTaskListId (item : Record) : Record :=
  match getField item "task_list_id" with
  | some v => if v.truthy then [("task_list_id", v)] else []
  | none => []

/-- The `task_list_id` entry of a phase 2 payload (`src/App.py` lines 853
to 857): the name lookup in `task_list_name_to_id` is the `if` branch,
the explicit `task_list_id` field of the record only its `elif`. -/
def taskListIdPart (m : NameMap) (item : Record) : Record :=
  let name := jvGetD item "task_list_name" (JVal.str false "")
  if name.truthy then
    match mapLookup m name with
    | some v => [("task_list_id", v)]
    | none => explicitTaskListId item
  else explicitTaskListId item

/-- The task payload built in phase 2 (`src/App.py` lines 846 to 863). -/
def taskPayload (pid : JVal) (m : NameMap) (item : Record) : Record :=
  [("title", jvGetD item "title" (JVal.str false "")),
   ("description", jvGetD item "description" (JVal.str false "")),
   ("project_id", pid)] ++
  taskListIdPart m item ++
  (optionalTaskFields.map (taskOptField item)).flatten

/-- Loop body of phase 1 (`src/App.py` lines 729 to 804). -/
def phase1_step (mode : Mode) (pid : JVal) (st : UState) (item : Record) : UState :=
  let iid := itemId item
  let name := jvGetD item "title" (JVal.str false "")
  if mode = Mode.updateOnly ∧ iid.truthy = false then
    { st with tlSkipped := st.tlSkipped + 1 }
  else
    let payload := taskListPayload pid item
    if payloadTitleOk payload = false then
      { st with tlFailed := st.tlFailed + 1 }
    else if (mode = Mode.updateOnly ∨ mode = Mode.smart) ∧ iid.truthy = true then
      let r := headResp st.net
      let st1 := { st with calls := st.calls ++ [UCall.putTaskList iid payload],
                           net := st.net.tail }
      if respOk r then
        { st1 with tlUpdated := st1.tlUpdated + 1,
                   nameToId := mapInsert st1.nameToId name iid }
      else { st1 with tlFailed := st1.tlFailed + 1 }
    else if mode = Mode.createOnly ∨ (mode = Mode.smart ∧ iid.truthy = false) then
      let r := headResp st.net
      let st1 := { st with calls := st.calls ++ [UCall.postTaskList payload],
                           net := st.net.tail }
      if respOk r then
        { st1 with tlCreated := st1.tlCreated + 1,
                   nameToId := mapInsert st1.nameToId name (respGetId r) }
      else { st1 with tlFailed := st1.tlFailed + 1 }
    else st

/-- Loop body of phase 2 (`src/App.py` lines 825 to 901). -/
def phase2_step (mode : Mode) (pid : JVal) (st : UState) (item : Record) : UState :=
  let iid := itemId item
  if mode = Mode.updateOnly ∧ iid.truthy = false then
    { st with tSkipped := st.tSkipped + 1 }
  else
    let payload := taskPayload pid st.nameToId item
    if payloadTitleOk payload = false then
      { st with tFailed := st.tFailed + 1 }
    else if (mode = Mode.updateOnly ∨ mode = Mode.smart) ∧ iid.truthy = true then
      let r := headResp st.net
      let st1 := { st with calls := st.calls ++ [UCall.putTask iid payload],
                           net := st.net.tail }
      if respOk r then { st1 with tUpdated := st1.tUpdated + 1 }
      else { st1 with tFailed := st1.tFailed + 1 }
    else if mode = Mode.createOnly ∨ (mode = Mode.smart ∧ iid.truthy = false) then
      let r := headResp st.net
      let st1 := { st with calls := st.calls ++ [UCall.postTask payload],
                           net := st.net.tail }
      if respOk r then { st1 with tCreated := st1.tCreated + 1 }
      else { st1 with tFailed := st1.tFailed + 1 }
    else st

/-- `str(item.get('type', '')).lower()`. -/
def typeTag (item : Record) : String :=
  lowerStr (pyStr (jvGetD item "type" (JVal.str false "")))

/-- One unified import run (`src/App.py` lines 674 to 920): partition by
type tag, phase 1 over the task lists, phase 2 over the tasks; in test
mode only the first record of each phase is processed. -/
def unified_run (mode : Mode) (test : Bool) (pid : JVal) (data : List Record)
    (net : List (Option JVal)) : UState :=
  let tls := data.filter (fun it => typeTag it == "tasklist")
  let ts := data.filter (fun it => typeTag it == "task")
  let st1 := (if test then tls.take 1 else tls).foldl (phase1_step mode pid)
    ⟨0, 0, 0, 0, 0, 0, 0, 0, [], [], net⟩
  (if test then ts.take 1 else ts).foldl (phase2_step mode pid) st1

def c1Item : Record :=
  [("type", JVal.str false "task"), ("title", JVal.str false "Orphan"),
   ("task_list_name", JVal.str false "Ghost")]

def c1St : UState :=
  ⟨0, 0, 0, 0, 0, 0, 0, 0, [], [], [some (JVal.obj [("id", JVal.int false 9)])]⟩

def c2TlItem : Record :=
  [("type", JVal.str false "tasklist"), ("title", JVal.str false "Sprint 1")]

def c2TaskItem : Record :=
  [("type", JVal.str false "task"), ("title", JVal.str false "Child"),
   ("task_list_name", JVal.str false "Sprint 1")]

def c2MismatchItem : Record :=
  [("type", JVal.str false "task"), ("title", JVal.str false "Child"),
   ("task_list_name", JVal.str false "  sprint 1 ")]

def c2St : UState :=
  ⟨0, 0, 0, 0, 0, 0, 0, 0, [], [], [some (JVal.obj [("id", JVal.int false 42)])]⟩

def c2Map : NameMap := [(JVal.str false "Sprint 1", JVal.int false 42)]

def c2Net : List (Option JVal) :=
  [some (JVal.obj [("id", JVal.int false 42)]), some (JVal.obj [("id", JVal.int false 99)])]

def c3TlItem : Record :=
  [("type", JVal.str false "tasklist"), ("title", JVal.str false "L")]

def c3TaskItem : Record :=
  [("type", JVal.str false "task"), ("title", JVal.str false "T"),
   ("task_list_name", JVal.str false "L"), ("task_list_id", JVal.int false 7)]

def c3Map : NameMap := [(JVal.str false "L", JVal.int false 42)]

def c3Net : List (Option JVal) :=
  [some (JVal.obj [("id", JVal.int false 42)]), some (JVal.obj [("id", JVal.int false 43)])]

/-- Sum of the four phase 1 (task list) tallies of a unified run. -/
def tlSum (st : UState) : Nat := st.tlCreated + st.tlUpdated + st.tlSkipped + st.tlFailed

/-- Sum of the four phase 2 (task) tallies of a unified run. -/
def tSum (st : UState) : Nat := st.tCreated + st.tUpdated + st.tSkipped + st.tFailed

theorem coerceScalar_idem (v : JVal) : coerceScalar (coerceScalar v) = coerceScalar v := by
  cases v <;> rfl

theorem keepField_coerce (sel : List String) (se ei : Bool) (k : String) (v : JVal) :
    keepField sel se ei k (coerceScalar v) = keepField sel se ei k v := by
  cases v <;> rfl

/-- Claim C10: the payload cleaner is idempotent: for every record and
every fixed field selection and flags, cleaning a cleaned record changes
nothing. -/
theorem clean_payload_idempotent (item : Record) (sel : List String) (se ei : Bool) :
    clean_payload (clean_payload item sel se ei) sel se ei =
      clean_payload item sel se ei := by
  induction item with
  | nil => rfl
  | cons hd rest ih =>
      obtain ⟨k, v⟩ := hd
      by_cases h : keepField sel se ei k v = true
      · simp only [clean_payload, h, if_true]
        simp only [clean_payload, keepField_coerce, h, if_true, coerceScalar_idem, ih]
      · rw [Bool.not_eq_true] at h
        simp only [clean_payload, h, Bool.false_eq_true, if_false]
        exact ih

/-- Claim C9: `extract_title` evaluated at the documented examples, and at
the input on which it returns null: a record whose title is a dict whose
`rendered` key holds an explicit null makes `t.get("rendered", "")` return
the stored `None`, contradicting the declared `-> str` signature. -/
theorem extract_title_rendered_null_bug :
    extract_title [("title", JVal.obj [("rendered", JVal.null)])] = JVal.null ∧
    extract_title [("title", JVal.obj [("rendered", JVal.str false "Foo")])] = JVal.str false "Foo" ∧
    extract_title [("title", JVal.str false "Bar")] = JVal.str false "Bar" ∧
    extract_title [("name", JVal.str false "Baz")] = JVal.str false "Baz" ∧
    extract_title [] = JVal.str false "" :=
  ⟨rfl, rfl, rfl, rfl, rfl⟩

theorem pageYield_filter (r : Option JVal) (items : List JVal)
    (h : pageYield r = some items) : ∃ xs, items = List.filter isObj xs := by
  unfold pageYield at h
  split at h
  · exact Option.noConfusion h
  · split at h
    · exact Option.noConfusion h
    · split at h
      · injection h with h
        exact ⟨_, h.symm⟩
      · split at h
        · injection h with h
          exact ⟨_, h.symm⟩
        · exact Option.noConfusion h
      · exact Option.noConfusion h

theorem pageYield_all_isObj (r : Option JVal) (items : List JVal)
    (h : pageYield r = some items) : items.all isObj = true := by
  obtain ⟨xs, rfl⟩ := pageYield_filter r items h
  rw [List.all_eq_true]
  intro a ha
  exact List.of_mem_filter ha

theorem fetchLoop_fst (pages : List (Option JVal)) : ∀ s : Nat,
    (fetchLoop s pages).1 =
      ((pages.take ((pages.takeWhile continues).length + 1)).filterMap pageYield).flatten := by
  induction pages with
  | nil => intro s; simp [fetchLoop]
  | cons r rest ih =>
      intro s
      cases hy : pageYield r with
      | none =>
          have hc : continues r = false := by simp [continues, hy]
          simp [fetchLoop, hy, List.takeWhile_cons, hc, List.filterMap_cons]
      | some items =>
          by_cases hlen : items.length < 100
          · have hc : continues r = false := by
              simp [continues, hy]
              omega
            simp [fetchLoop, hy, hlen, List.takeWhile_cons, hc, List.filterMap_cons]
          · have hc : continues r = true := by
              simp [continues, hy]
              omega
            simp [fetchLoop, hy, hlen, List.takeWhile_cons, hc, List.filterMap_cons, ih]

theorem fetchLoop_snd (pages : List (Option JVal)) : ∀ s : Nat,
    (fetchLoop s pages).2 =
      (List.range ((pages.takeWhile continues).length + 1)).map (fun i => (s + i, 100)) := by
  induction pages with
  | nil => intro s; simp [fetchLoop, List.range_succ]
  | cons r rest ih =>
      intro s
      cases hy : pageYield r with
      | none =>
          have hc : continues r = false := by simp [continues, hy]
          simp [fetchLoop, hy, List.takeWhile_cons, hc, List.range_succ]
      | some items =>
          by_cases hlen : items.length < 100
          · have hc : continues r = false := by
              simp [continues, hy]
              omega
            simp [fetchLoop, hy, hlen, List.takeWhile_cons, hc, List.range_succ]
          · have hc : continues r = true := by
              simp [continues, hy]
              omega
            have hstep : (fetchLoop s (r :: rest)).2 = (s, 100) :: (fetchLoop (s + 1) rest).2 := by
              simp [fetchLoop, hy, hlen]
            have hTW : (List.takeWhile continues (r :: rest)).length =
                (List.takeWhile continues rest).length + 1 := by
              simp [List.takeWhile_cons, hc]
            rw [hstep, ih (s + 1), hTW,
              List.range_succ_eq_map ((List.takeWhile continues rest).length + 1),
              List.map_cons, List.map_map]
            refine List.cons_eq_cons.mpr ⟨by simp, ?_⟩
            apply List.map_congr_left
            intro i _
            simp only [Function.comp_apply, Prod.mk.injEq]
            exact ⟨by omega, trivial⟩

theorem fetchLoop_isObj (pages : List (Option JVal)) : ∀ s : Nat,
    ((fetchLoop s pages).1).all isObj = true := by
  induction pages with
  | nil => intro s; simp [fetchLoop]
  | cons r rest ih =>
      intro s
      cases hy : pageYield r with
      | none => simp [fetchLoop, hy]
      | some items =>
          have hitems := pageYield_all_isObj r items hy
          by_cases hlen : items.length < 100
          · simp [fetchLoop, hy, hlen, hitems]
          · simp [fetchLoop, hy, hlen, List.all_append, hitems, ih]

/-- Claim C8: `fetch_all_pages` requests pages with increasing page index
and fixed page size 100 starting at page 1, stops at the first page that
yields fewer than 100 dict shaped items or an empty or absent result,
returns the concatenation of the dict shaped items of the consumed pages
in page order, and accepts a page as either a bare array or an object
wrapping an array under a `data` key (demonstrated by the concrete mixed
shape run in the last two conjuncts). -/
theorem fetch_all_pages_spec (pages : List (Option JVal)) :
    fetch_all_pages pages =
      ((pages.take ((pages.takeWhile continues).length + 1)).filterMap pageYield).flatten ∧
    requestTrace pages =
      (List.range ((pages.takeWhile continues).length + 1)).map (fun i => (i + 1, 100)) ∧
    (fetch_all_pages pages).all isObj = true ∧
    fetch_all_pages
        [some (JVal.arr (List.replicate 100 (JVal.obj [("id", JVal.int false 1)]))),
         some (JVal.obj [("data",
            JVal.arr [JVal.obj [("id", JVal.int false 2)], JVal.int false 3])])] =
      List.replicate 100 (JVal.obj [("id", JVal.int false 1)]) ++
        [JVal.obj [("id", JVal.int false 2)]] ∧
    requestTrace
        [some (JVal.arr (List.replicate 100 (JVal.obj [("id", JVal.int false 1)]))),
         some (JVal.obj [("data",
            JVal.arr [JVal.obj [("id", JVal.int false 2)], JVal.int false 3])])] =
      [(1, 100), (2, 100)] := by
  refine ⟨fetchLoop_fst pages 1, ?_, fetchLoop_isObj pages 1, rfl, rfl⟩
  rw [show requestTrace pages = (fetchLoop 1 pages).2 from rfl, fetchLoop_snd pages 1]
  apply List.map_congr_left
  intro i _
  simp only [Prod.mk.injEq]
  exact ⟨Nat.add_comm 1 i, trivial⟩

/-- Claim C4 counterexample: a record whose title is empty after
normalization is counted in the failed tally, not the skipped tally (the
claim asserts it is counted as skipped); no network call is made. -/
theorem missing_title_skipped_counterexample :
    (import_projects Mode.createOnly [] true false [[("title", JVal.str false "")]] []).skipped = 0 ∧
    (import_projects Mode.createOnly [] true false [[("title", JVal.str false "")]] []).failed = 1 ∧
    (import_projects Mode.createOnly [] true false [[("title", JVal.str false "")]] []).calls = [] :=
  ⟨rfl, rfl, rfl⟩

/-- Claim C4 (amended): a record whose cleaned payload has no truthy
title, and which is not skipped earlier by Update Existing Only mode for
lack of an id, is counted as failed (the warning text says Skipping but
the failed counter is incremented) and no network call is made for it. -/
theorem missing_title_counted_failed (mode : Mode) (sel : List String) (se : Bool)
    (st : PState) (item : Record)
    (hmode : mode = Mode.updateOnly → (itemId item).truthy = true)
    (htitle : payloadTitleOk (clean_payload item sel se true) = false) :
    projects_step mode sel se st item = { st with failed := st.failed + 1 } := by
  have hn : ¬(mode = Mode.updateOnly ∧ (itemId item).truthy = false) := by
    rintro ⟨h1, h2⟩
    rw [hmode h1] at h2
    cases h2
  simp only [projects_step]
  rw [if_neg hn, if_pos htitle]

theorem missing_title_counted_failed_witness :
    projects_step Mode.createOnly [] true ⟨0, 0, 0, 0, [], []⟩ [("title", JVal.str false "")] =
      (⟨0, 0, 0, 1, [], []⟩ : PState) :=
  missing_title_counted_failed Mode.createOnly [] true ⟨0, 0, 0, 0, [], []⟩
    [("title", JVal.str false "")] (fun h => Mode.noConfusion h) rfl

/-- Claim C5 counterexample: in Smart mode a record carrying the present,
non empty id 5 but no title issues no update call at all (the claim
asserts every record with a non empty id produces an update call): the
run makes zero network calls and counts the record as failed. -/
theorem smart_update_claim_counterexample :
    itemId [("id", JVal.int false 5)] = JVal.int false 5 ∧
    (itemId [("id", JVal.int false 5)]).truthy = true ∧
    (import_projects Mode.smart [] true false [[("id", JVal.int false 5)]] []).calls = [] ∧
    (import_projects Mode.smart [] true false [[("id", JVal.int false 5)]] []).failed = 1 :=
  ⟨rfl, rfl, rfl, rfl⟩

/-- Claim C5 (amended): in Smart mode the calls issued for a record are:
none when the cleaned payload has no truthy title; exactly one update
(PUT) and no create when the id is present and truthy; exactly one create
(POST) and no update when it is not. -/
theorem smart_mode_call_shape (sel : List String) (se : Bool) (st : PState) (item : Record) :
    (projects_step Mode.smart sel se st item).calls =
      st.calls ++
        (if payloadTitleOk (clean_payload item sel se true) = false then []
         else if (itemId item).truthy = true then
           [PCall.put (itemId item) (clean_payload item sel se true)]
         else [PCall.post (clean_payload item sel se true)]) := by
  rcases Bool.eq_false_or_eq_true (payloadTitleOk (clean_payload item sel se true)) with ht | ht <;>
    rcases Bool.eq_false_or_eq_true (itemId item).truthy with hid | hid <;>
      rcases Bool.eq_false_or_eq_true (respOk (headResp st.net)) with hr | hr <;>
        simp [projects_step, ht, hid, hr]

theorem projects_step_createOnly_ok (sel : List String) (se : Bool)
    (st : PState) (item : Record)
    (hT : payloadTitleOk (clean_payload item sel se true) = true)
    (hok : respOk (headResp st.net) = true) :
    projects_step Mode.createOnly sel se st item =
      { st with created := st.created + 1,
                calls := st.calls ++ [PCall.post (clean_payload item sel se true)],
                net := st.net.tail } := by
  simp [projects_step, hT, hok]

theorem createOnly_fold (sel : List String) (se : Bool) :
    ∀ (items : List Record) (st : PState),
      (∀ item ∈ items, payloadTitleOk (clean_payload item sel se true) = true) →
      (∀ o ∈ st.net.take items.length, respOk o = true) →
      items.length ≤ st.net.length →
      items.foldl (projects_step Mode.createOnly sel se) st =
        { st with created := st.created + items.length,
                  calls := st.calls ++
                    items.map (fun it => PCall.post (clean_payload it sel se true)),
                  net := st.net.drop items.length } := by
  intro items
  induction items with
  | nil =>
      intro st _ _ _
      simp
  | cons it rest ih =>
      intro st hT hN hL
      obtain ⟨o, net', hnet⟩ : ∃ o net', st.net = o :: net' := by
        cases hnet : st.net with
        | nil =>
            rw [hnet] at hL
            simp at hL
        | cons o net' => exact ⟨o, net', rfl⟩
      have hok : respOk (headResp st.net) = true := by
        apply hN
        rw [hnet]
        simp [List.take_succ_cons, headResp]
      rw [List.foldl_cons,
        projects_step_createOnly_ok sel se st it (hT it (List.mem_cons_self it rest)) hok]
      rw [ih _ (fun x hx => hT x (List.mem_cons_of_mem it hx))
        (by
          intro o' ho'
          apply hN
          rw [hnet, List.length_cons, List.take_succ_cons]
          simp only [List.tail_cons] at ho'
          rw [hnet] at ho'
          simp only [List.tail_cons] at ho'
          exact List.mem_cons_of_mem o ho')
        (by
          rw [hnet] at hL ⊢
          simp at hL ⊢
          omega)]
      rw [hnet]
      simp [List.append_assoc]
      omega

/-- Claim C7: in Create New Only mode, for a full (non test) run in which
every record passes title validation and every remote create call
succeeds, the Result Ledger reports exactly N created and 0 updated, 0
skipped, 0 failed, and the N create calls carry the cleaned payloads of
the input records in the same relative order as the batch. -/
theorem create_only_ledger (sel : List String) (se : Bool)
    (items : List Record) (net : List (Option JVal))
    (hT : ∀ item ∈ items, payloadTitleOk (clean_payload item sel se true) = true)
    (hN : ∀ o ∈ net.take items.length, respOk o = true)
    (hL : items.length ≤ net.length) :
    import_projects Mode.createOnly sel se false items net =
      { created := items.length, updated := 0, skipped := 0, failed := 0,
        calls := items.map (fun it => PCall.post (clean_payload it sel se true)),
        net := net.drop items.length } := by
  show items.foldl (projects_step Mode.createOnly sel se) ⟨0, 0, 0, 0, [], net⟩ = _
  rw [createOnly_fold sel se items ⟨0, 0, 0, 0, [], net⟩ hT hN hL]
  simp

theorem create_only_ledger_witness :
    import_projects Mode.createOnly [] true false
        [[("title", JVal.str false "A")], [("title", JVal.str false "B")]]
        [some (JVal.obj [("id", JVal.int false 1)]), some (JVal.obj [("id", JVal.int false 2)])] =
      { created := 2, updated := 0, skipped := 0, failed := 0,
        calls := [PCall.post [("title", JVal.str false "A")],
                  PCall.post [("title", JVal.str false "B")]],
        net := [] } :=
  create_only_ledger [] true
    [[("title", JVal.str false "A")], [("title", JVal.str false "B")]]
    [some (JVal.obj [("id", JVal.int false 1)]), some (JVal.obj [("id", JVal.int false 2)])]
    (by decide) (by decide) (by decide)

theorem getField_append_none (l1 l2 : List (String × JVal)) (k : String)
    (h : getField l1 k = none) : getField (l1 ++ l2) k = getField l2 k := by
  induction l1 with
  | nil => rfl
  | cons hd rest ih =>
      obtain ⟨k1, v1⟩ := hd
      by_cases hk : (k1 == k) = true
      · simp [getField, hk] at h
      · simp only [getField, hk, Bool.false_eq_true, if_false, List.cons_append] at h ⊢
        exact ih h

theorem getField_append_some (l1 l2 : List (String × JVal)) (k : String) (v : JVal)
    (h : getField l1 k = some v) : getField (l1 ++ l2) k = some v := by
  induction l1 with
  | nil => exact Option.noConfusion h
  | cons hd rest ih =>
      obtain ⟨k1, v1⟩ := hd
      by_cases hk : (k1 == k) = true
      · simp only [getField, hk, if_true] at h ⊢
        exact h
      · simp only [getField, hk, Bool.false_eq_true, if_false, List.cons_append] at h ⊢
        exact ih h

theorem taskOptField_ne (item : Record) (f k : String) (h : (f == k) = false) :
    getField (taskOptField item f) k = none := by
  unfold taskOptField
  cases getField item f with
  | none => rfl
  | some v =>
      by_cases hv : (pyEq v JVal.null || pyEq v (JVal.str false "") ||
          pyEq v (JVal.str false "None")) = true <;>
        simp [hv, getField, h]

theorem getField_optFlatten_none (item : Record) (k : String) :
    ∀ names : List String, (names.all (fun f => !(f == k))) = true →
      getField ((names.map (taskOptField item)).flatten) k = none := by
  intro names
  induction names with
  | nil => intro _; rfl
  | cons f rest ih =>
      intro h
      simp only [List.all_cons, Bool.and_eq_true, Bool.not_eq_true'] at h
      simp only [List.map_cons, List.flatten_cons]
      rw [getField_append_none _ _ _ (taskOptField_ne item f k h.1)]
      exact ih h.2

theorem taskListIdPart_resolved (m : NameMap) (item : Record) (v : JVal)
    (hname : (jvGetD item "task_list_name" (JVal.str false "")).truthy = true)
    (hlook : mapLookup m (jvGetD item "task_list_name" (JVal.str false "")) = some v) :
    taskListIdPart m item = [("task_list_id", v)] := by
  simp [taskListIdPart, hname, hlook]

theorem taskListIdPart_explicit (m : NameMap) (item : Record) (w : JVal)
    (hname : (jvGetD item "task_list_name" (JVal.str false "")).truthy = false ∨
      mapLookup m (jvGetD item "task_list_name" (JVal.str false "")) = none)
    (hw : getField item "task_list_id" = some w) (hwt : w.truthy = true) :
    taskListIdPart m item = [("task_list_id", w)] := by
  have he : explicitTaskListId item = [("task_list_id", w)] := by
    simp [explicitTaskListId, hw, hwt]
  rcases Bool.eq_false_or_eq_true
      ((jvGetD item "task_list_name" (JVal.str false "")).truthy) with ht | ht
  · rcases hname with hname | hname
    · rw [ht] at hname
      simp at hname
    · simp [taskListIdPart, ht, hname, he]
  · simp [taskListIdPart, ht, he]

theorem taskListIdPart_empty (m : NameMap) (item : Record)
    (hname : (jvGetD item "task_list_name" (JVal.str false "")).truthy = false ∨
      mapLookup m (jvGetD item "task_list_name" (JVal.str false "")) = none)
    (hexp : ∀ v, getField item "task_list_id" = some v → v.truthy = false) :
    taskListIdPart m item = [] := by
  have he : explicitTaskListId item = [] := by
    unfold explicitTaskListId
    cases hv : getField item "task_list_id" with
    | none => rfl
    | some v => simp [hexp v hv]
  rcases Bool.eq_false_or_eq_true
      ((jvGetD item "task_list_name" (JVal.str false "")).truthy) with ht | ht
  · rcases hname with hname | hname
    · rw [ht] at hname
      simp at hname
    · simp [taskListIdPart, ht, hname, he]
  · simp [taskListIdPart, ht, he]

theorem taskPayload_tlid_none (pid : JVal) (m : NameMap) (item : Record)
    (hname : (jvGetD item "task_list_name" (JVal.str false "")).truthy = false ∨
      mapLookup m (jvGetD item "task_list_name" (JVal.str false "")) = none)
    (hexp : ∀ v, getField item "task_list_id" = some v → v.truthy = false) :
    getField (taskPayload pid m item) "task_list_id" = none := by
  unfold taskPayload
  rw [taskListIdPart_empty m item hname hexp]
  have hb : getField ([("title", jvGetD item "title" (JVal.str false "")),
      ("description", jvGetD item "description" (JVal.str false "")),
      ("project_id", pid)] ++ ([] : Record)) "task_list_id" = none := rfl
  rw [getField_append_none _ _ _ hb]
  exact getField_optFlatten_none item "task_list_id" optionalTaskFields rfl

theorem taskPayload_tlid_some (pid : JVal) (m : NameMap) (item : Record) (v : JVal)
    (htl : taskListIdPart m item = [("task_list_id", v)]) :
    getField (taskPayload pid m item) "task_list_id" = some v := by
  unfold taskPayload
  rw [htl]
  exact getField_append_some _ _ _ _ rfl

theorem phase2_step_call (mode : Mode) (pid : JVal) (st : UState) (item : Record)
    (hmode : ¬(mode = Mode.updateOnly ∧ (itemId item).truthy = false))
    (htitle : payloadTitleOk (taskPayload pid st.nameToId item) = true) :
    (phase2_step mode pid st item).tSkipped = st.tSkipped ∧
    ∃ c, (phase2_step mode pid st item).calls = st.calls ++ [c] ∧
      ucallPayload c = taskPayload pid st.nameToId item := by
  cases mode with
  | createOnly =>
      rcases Bool.eq_false_or_eq_true (respOk (headResp st.net)) with hr | hr <;>
        simp [phase2_step, htitle, hr, ucallPayload]
  | updateOnly =>
      rcases Bool.eq_false_or_eq_true (itemId item).truthy with hid | hid
      · rcases Bool.eq_false_or_eq_true (respOk (headResp st.net)) with hr | hr <;>
          simp [phase2_step, htitle, hid, hr, ucallPayload]
      · exact absurd ⟨rfl, hid⟩ hmode
  | smart =>
      rcases Bool.eq_false_or_eq_true (itemId item).truthy with hid | hid <;>
        rcases Bool.eq_false_or_eq_true (respOk (headResp st.net)) with hr | hr <;>
          simp [phase2_step, htitle, hid, hr, ucallPayload]

/-- Claim C1 counterexample: a full unified import of one task whose
`task_list_name` (`Ghost`) matches nothing and which has no explicit
`task_list_id`: the record is NOT failed (failed tally 0), one network
call IS made, and it IS imported parentless (created, with a payload that
omits `task_list_id`). -/
theorem unresolved_parent_counterexample :
    (unified_run Mode.createOnly false (JVal.int false 1) [c1Item]
        [some (JVal.obj [("id", JVal.int false 9)])]).tFailed = 0 ∧
    (unified_run Mode.createOnly false (JVal.int false 1) [c1Item]
        [some (JVal.obj [("id", JVal.int false 9)])]).tCreated = 1 ∧
    (unified_run Mode.createOnly false (JVal.int false 1) [c1Item]
        [some (JVal.obj [("id", JVal.int false 9)])]).calls =
      [UCall.postTask [("title", JVal.str false "Orphan"),
        ("description", JVal.str false ""), ("project_id", JVal.int false 1)]] ∧
    getField [("title", JVal.str false "Orphan"), ("description", JVal.str false ""),
      ("project_id", JVal.int false 1)] "task_list_id" = none :=
  ⟨rfl, rfl, rfl, rfl⟩

/-- Claim C1 (amended): a phase 2 task whose parent reference resolves
neither via the explicit `task_list_id` field (absent or falsy) nor via
the Resolution Map is not failed for that reason and not spared a network
call: its payload simply omits `task_list_id`, and provided the title
passes validation (and Update Existing Only mode does not skip it for
lack of an id) exactly one normal create or update call is issued with
that parentless payload. -/
theorem unresolved_parent_imported_parentless (mode : Mode) (pid : JVal)
    (st : UState) (item : Record)
    (hname : (jvGetD item "task_list_name" (JVal.str false "")).truthy = false ∨
      mapLookup st.nameToId (jvGetD item "task_list_name" (JVal.str false "")) = none)
    (hexp : ∀ v, getField item "task_list_id" = some v → v.truthy = false)
    (hmode : ¬(mode = Mode.updateOnly ∧ (itemId item).truthy = false))
    (htitle : payloadTitleOk (taskPayload pid st.nameToId item) = true) :
    getField (taskPayload pid st.nameToId item) "task_list_id" = none ∧
    (phase2_step mode pid st item).tSkipped = st.tSkipped ∧
    ∃ c, (phase2_step mode pid st item).calls = st.calls ++ [c] ∧
      ucallPayload c = taskPayload pid st.nameToId item := by
  obtain ⟨h1, h2⟩ := phase2_step_call mode pid st item hmode htitle
  exact ⟨taskPayload_tlid_none pid st.nameToId item hname hexp, h1, h2⟩

theorem unresolved_parent_imported_parentless_witness :
    getField (taskPayload (JVal.int false 1) c1St.nameToId c1Item) "task_list_id" = none ∧
    (phase2_step Mode.createOnly (JVal.int false 1) c1St c1Item).tSkipped = c1St.tSkipped ∧
    ∃ c, (phase2_step Mode.createOnly (JVal.int false 1) c1St c1Item).calls =
        c1St.calls ++ [c] ∧
      ucallPayload c = taskPayload (JVal.int false 1) c1St.nameToId c1Item :=
  unresolved_parent_imported_parentless Mode.createOnly (JVal.int false 1) c1St c1Item
    (Or.inr rfl) (fun _ h => Option.noConfusion h) (fun h => Mode.noConfusion h.1) rfl

/-- Claim C2 counterexample: phase 1 creates the task list titled
`Sprint 1` and records remote id 42 under the raw title, but the phase 2
task naming `  sprint 1 ` (differing only in case and surrounding
whitespace) does NOT resolve to 42: its create payload carries no
`task_list_id` at all, because both the stored key and the lookup use the
raw, unnormalized strings. -/
theorem whitespace_case_match_counterexample :
    (unified_run Mode.createOnly false (JVal.int false 7) [c2TlItem, c2MismatchItem]
        c2Net).nameToId = [(JVal.str false "Sprint 1", JVal.int false 42)] ∧
    (unified_run Mode.createOnly false (JVal.int false 7) [c2TlItem, c2MismatchItem]
        c2Net).calls =
      [UCall.postTaskList [("title", JVal.str false "Sprint 1"),
        ("description", JVal.str false ""), ("project_id", JVal.int false 7)],
       UCall.postTask [("title", JVal.str false "Child"),
        ("description", JVal.str false ""), ("project_id", JVal.int false 7)]] ∧
    getField [("title", JVal.str false "Child"), ("description", JVal.str false ""),
      ("project_id", JVal.int false 7)] "task_list_id" = none :=
  ⟨rfl, rfl, rfl⟩

/-- Claim C2 (amended): parent and child titles are matched by exact raw
equality, not case and whitespace insensitively: a successful phase 1
create stores the raw, unnormalized title against the returned remote id;
a raw string key is looked up by plain string equality, so any key equal
to the stored title character for character resolves; and a phase 2 task
whose raw `task_list_name` is found in the map receives exactly the
stored id in its payload. -/
theorem exact_title_match_resolves :
    (∀ (pid : JVal) (st : UState) (item : Record),
      payloadTitleOk (taskListPayload pid item) = true →
      respOk (headResp st.net) = true →
      (phase1_step Mode.createOnly pid st item).nameToId =
        mapInsert st.nameToId (jvGetD item "title" (JVal.str false ""))
          (respGetId (headResp st.net))) ∧
    (∀ (T : String) (idv : JVal) (m : NameMap),
      mapLookup ((JVal.str false T, idv) :: m) (JVal.str false T) = some idv) ∧
    (∀ (pid : JVal) (m : NameMap) (item : Record) (v : JVal),
      (jvGetD item "task_list_name" (JVal.str false "")).truthy = true →
      mapLookup m (jvGetD item "task_list_name" (JVal.str false "")) = some v →
      getField (taskPayload pid m item) "task_list_id" = some v) := by
  refine ⟨?_, ?_, ?_⟩
  · intro pid st item hT hok
    simp [phase1_step, hT, hok]
  · intro T idv m
    unfold mapLookup
    rw [List.find?_cons_of_pos _ (by simp [pyEq])]
    rfl
  · intro pid m item v hname hlook
    exact taskPayload_tlid_some pid m item v (taskListIdPart_resolved m item v hname hlook)

theorem exact_title_match_resolves_witness :
    (phase1_step Mode.createOnly (JVal.int false 7) c2St c2TlItem).nameToId =
      mapInsert c2St.nameToId (jvGetD c2TlItem "title" (JVal.str false ""))
        (respGetId (headResp c2St.net)) ∧
    mapLookup ((JVal.str false "Sprint 1", JVal.int false 42) :: [])
      (JVal.str false "Sprint 1") = some (JVal.int false 42) ∧
    getField (taskPayload (JVal.int false 7) c2Map c2TaskItem) "task_list_id" =
      some (JVal.int false 42) :=
  ⟨exact_title_match_resolves.1 (JVal.int false 7) c2St c2TlItem rfl rfl,
   exact_title_match_resolves.2.1 "Sprint 1" (JVal.int false 42) [],
   exact_title_match_resolves.2.2 (JVal.int false 7) c2Map c2TaskItem
     (JVal.int false 42) rfl rfl⟩

/-- Claim C3 counterexample: a task carrying BOTH the explicit field
`task_list_id = 7` and the name `L` of a task list created in phase 1
with remote id 42 is sent with `task_list_id = 42`: the Resolution Map
lookup by name wins, not the explicit field as the claim states. -/
theorem explicit_id_precedence_counterexample :
    getField c3TaskItem "task_list_id" = some (JVal.int false 7) ∧
    (unified_run Mode.createOnly false (JVal.int false 3) [c3TlItem, c3TaskItem]
        c3Net).calls =
      [UCall.postTaskList [("title", JVal.str false "L"),
        ("description", JVal.str false ""), ("project_id", JVal.int false 3)],
       UCall.postTask [("title", JVal.str false "T"),
        ("description", JVal.str false ""), ("project_id", JVal.int false 3),
        ("task_list_id", JVal.int false 42)]] ∧
    getField [("title", JVal.str false "T"), ("description", JVal.str false ""),
      ("project_id", JVal.int false 3), ("task_list_id", JVal.int false 42)]
      "task_list_id" = some (JVal.int false 42) :=
  ⟨rfl, rfl, rfl⟩

/-- Claim C3 (amended): the precedence is the reverse of the claim: the
Resolution Map lookup by parent reference name is the `if` branch and
wins whenever the name is truthy and found, regardless of any explicit
`task_list_id` field on the record; the explicit field is consulted only
when the name is falsy or not in the map. -/
theorem map_lookup_precedes_explicit_id :
    (∀ (pid : JVal) (m : NameMap) (item : Record) (v w : JVal),
      (jvGetD item "task_list_name" (JVal.str false "")).truthy = true →
      mapLookup m (jvGetD item "task_list_name" (JVal.str false "")) = some v →
      getField item "task_list_id" = some w → w.truthy = true →
      getField (taskPayload pid m item) "task_list_id" = some v) ∧
    (∀ (pid : JVal) (m : NameMap) (item : Record) (w : JVal),
      ((jvGetD item "task_list_name" (JVal.str false "")).truthy = false ∨
        mapLookup m (jvGetD item "task_list_name" (JVal.str false "")) = none) →
      getField item "task_list_id" = some w → w.truthy = true →
      getField (taskPayload pid m item) "task_list_id" = some w) := by
  constructor
  · intro pid m item v w hname hlook _ _
    exact taskPayload_tlid_some pid m item v (taskListIdPart_resolved m item v hname hlook)
  · intro pid m item w hname hw hwt
    exact taskPayload_tlid_some pid m item w (taskListIdPart_explicit m item w hname hw hwt)

theorem map_lookup_precedes_explicit_id_witness :
    getField (taskPayload (JVal.int false 3) c3Map c3TaskItem) "task_list_id" =
      some (JVal.int false 42) ∧
    getField (taskPayload (JVal.int false 3) [] c3TaskItem) "task_list_id" =
      some (JVal.int false 7) :=
  ⟨map_lookup_precedes_explicit_id.1 (JVal.int false 3) c3Map c3TaskItem
      (JVal.int false 42) (JVal.int false 7) rfl rfl rfl rfl,
   map_lookup_precedes_explicit_id.2 (JVal.int false 3) [] c3TaskItem (JVal.int false 7)
      (Or.inr rfl) rfl rfl⟩

theorem phase1_step_sums (mode : Mode) (pid : JVal) (st : UState) (item : Record) :
    tlSum (phase1_step mode pid st item) = tlSum st + 1 ∧
    tSum (phase1_step mode pid st item) = tSum st := by
  cases mode <;>
    rcases Bool.eq_false_or_eq_true (itemId item).truthy with hid | hid <;>
      rcases Bool.eq_false_or_eq_true (payloadTitleOk (taskListPayload pid item)) with ht | ht <;>
        rcases Bool.eq_false_or_eq_true (respOk (headResp st.net)) with hr | hr <;>
          simp [phase1_step, tlSum, tSum, hid, ht, hr] <;> omega

theorem phase2_step_sums (mode : Mode) (pid : JVal) (st : UState) (item : Record) :
    tSum (phase2_step mode pid st item) = tSum st + 1 ∧
    tlSum (phase2_step mode pid st item) = tlSum st := by
  cases mode <;>
    rcases Bool.eq_false_or_eq_true (itemId item).truthy with hid | hid <;>
      rcases Bool.eq_false_or_eq_true
          (payloadTitleOk (taskPayload pid st.nameToId item)) with ht | ht <;>
        rcases Bool.eq_false_or_eq_true (respOk (headResp st.net)) with hr | hr <;>
          simp [phase2_step, tlSum, tSum, hid, ht, hr] <;> omega

theorem phase1_fold_sums (mode : Mode) (pid : JVal) :
    ∀ (items : List Record) (st : UState),
      tlSum (items.foldl (phase1_step mode pid) st) = tlSum st + items.length ∧
      tSum (items.foldl (phase1_step mode pid) st) = tSum st := by
  intro items
  induction items with
  | nil => intro st; simp
  | cons it rest ih =>
      intro st
      rw [List.foldl_cons]
      have h1 := phase1_step_sums mode pid st it
      have h2 := ih (phase1_step mode pid st it)
      simp only [List.length_cons]
      omega

theorem phase2_fold_sums (mode : Mode) (pid : JVal) :
    ∀ (items : List Record) (st : UState),
      tSum (items.foldl (phase2_step mode pid) st) = tSum st + items.length ∧
      tlSum (items.foldl (phase2_step mode pid) st) = tlSum st := by
  intro items
  induction items with
  | nil => intro st; simp
  | cons it rest ih =>
      intro st
      rw [List.foldl_cons]
      have h1 := phase2_step_sums mode pid st it
      have h2 := ih (phase2_step mode pid st it)
      simp only [List.length_cons]
      omega

/-- Claim C6 counterexample: a record whose type tag is `note` is placed
in neither phase of the unified import: the run assigns it no outcome at
all (all eight tallies stay zero and no call is made), silently dropping
it, against the claim that every record receives exactly one outcome. -/
theorem unknown_type_dropped_counterexample :
    (unified_run Mode.createOnly false (JVal.int false 1)
        [[("type", JVal.str false "note"), ("title", JVal.str false "X")]] []).calls = [] ∧
    tlSum (unified_run Mode.createOnly false (JVal.int false 1)
        [[("type", JVal.str false "note"), ("title", JVal.str false "X")]] []) = 0 ∧
    tSum (unified_run Mode.createOnly false (JVal.int false 1)
        [[("type", JVal.str false "note"), ("title", JVal.str false "X")]] []) = 0 :=
  ⟨rfl, rfl, rfl⟩

/-- Claim C6 (amended): in a full (non test) unified run, every record
whose stringified, lowercased type tag is `tasklist` or `task` receives
exactly one outcome: the four tallies of each phase sum exactly to the
number of records of that type; records with any other or missing type
tag belong to neither phase and receive no outcome. -/
theorem unified_outcome_totals (mode : Mode) (pid : JVal) (data : List Record)
    (net : List (Option JVal)) :
    tlSum (unified_run mode false pid data net) =
      (data.filter (fun it => typeTag it == "tasklist")).length ∧
    tSum (unified_run mode false pid data net) =
      (data.filter (fun it => typeTag it == "task")).length := by
  have h1 := phase1_fold_sums mode pid (data.filter (fun it => typeTag it == "tasklist"))
    ⟨0, 0, 0, 0, 0, 0, 0, 0, [], [], net⟩
  have h2 := phase2_fold_sums mode pid (data.filter (fun it => typeTag it == "task"))
    ((data.filter (fun it => typeTag it == "tasklist")).foldl (phase1_step mode pid)
      ⟨0, 0, 0, 0, 0, 0, 0, 0, [], [], net⟩)
  have hrun : unified_run mode false pid data net =
      (data.filter (fun it => typeTag it == "task")).foldl (phase2_step mode pid)
        ((data.filter (fun it => typeTag it == "tasklist")).foldl (phase1_step mode pid)
          ⟨0, 0, 0, 0, 0, 0, 0, 0, [], [], net⟩) := rfl
  have h0tl : tlSum ⟨0, 0, 0, 0, 0, 0, 0, 0, [], [], net⟩ = 0 := rfl
  have h0t : tSum ⟨0, 0, 0, 0, 0, 0, 0, 0, [], [], net⟩ = 0 := rfl
  rw [hrun]
  constructor
  · rw [h2.2, h1.1, h0tl, Nat.zero_add]
  · rw [h2.1, h1.2, h0t, Nat.zero_add]
